import Mathlib

/-!
Shallow embedding of the citation-verification core of `src/main.py`
(Citation Hallucination Checker, DBLP + OpenAlex).

Strings are modelled as `List Char`.  The two network providers are
modelled as functions from a queried title to an optional candidate
record; the HTTP layer of each concrete provider is modelled separately
as a function from a title to an abstract HTTP outcome (exception,
or a status code with a parsed JSON body).

The fuzzy similarity `fuzz.ratio` of rapidfuzz is the normalized indel
similarity, `100 * 2 * lcs(a, b) / (len a + len b)` on a 0-100 scale
(100 when both strings are empty); `fuzz.partial_ratio` takes the best
`fuzz.ratio` alignment of the shorter string against windows of the
longer one.  Scores are modelled as rationals.
-/

namespace CiteCheck

/-- Inner loop of the longest-common-subsequence length: `f` is the LCS
length of the tail of the first string against an arbitrary second
string.  Splitting the textbook double recursion this way keeps both
recursions structural, so the kernel can evaluate them; the lemma
`lcsLen_cons_cons` below recovers the textbook equation by `rfl`. -/
def lcsInner (x : Char) (f : List Char → Nat) : List Char → Nat
  | [] => 0
  | y :: ys => if x = y then f ys + 1 else max (lcsInner x f ys) (f (y :: ys))

/-- Length of a longest common subsequence of two character lists
(the basis of the indel similarity used by rapidfuzz `fuzz.ratio`). -/
def lcsLen : List Char → List Char → Nat
  | [], _ => 0
  | x :: xs, b => lcsInner x (fun ys => lcsLen xs ys) b

/-- rapidfuzz `fuzz.ratio`: normalized indel similarity on a 0-100 scale. -/
def simScore (a b : List Char) : ℚ :=
  if a.length + b.length = 0 then 100
  else 100 * (2 * (lcsLen a b : ℚ)) / ((a.length : ℚ) + (b.length : ℚ))

/-- Python `str.lower()`, character by character. -/
def lowerStr (s : List Char) : List Char := s.map Char.toLower

/-- The title similarity used by the pipeline:
`fuzz.ratio(x.lower(), y.lower())` (src/main.py lines 104 and 262). -/
def scoreTitles (a b : List Char) : ℚ := simScore (lowerStr a) (lowerStr b)

/-- Alignment windows of the longer string considered by
`fuzz.partial_ratio`: every window of the length of the shorter string,
plus the clipped windows at both borders. -/
def slidingWindows (n : Nat) (l : List Char) : List (List Char) :=
  ((List.range (l.length + 1)).map fun i => (l.drop i).take n)
    ++ ((List.range n).map fun j => l.take j)

/-- rapidfuzz `fuzz.partial_ratio`: best `fuzz.ratio` of the shorter
string against the alignment windows of the longer string. -/
def partialMatchScore (a b : List Char) : ℚ :=
  let s := if a.length ≤ b.length then a else b
  let l := if a.length ≤ b.length then b else a
  ((slidingWindows s.length l).map fun w => simScore s w).foldr max 0

/-- Text before the first occurrence of the separator `sep`
(Python `s.split(sep)[0]` for a nonempty separator). -/
def takeUntilSep (sep : List Char) : List Char → List Char
  | [] => []
  | c :: cs => if List.isPrefixOf sep (c :: cs) then [] else c :: takeUntilSep sep cs

/-- Python `str.strip()`: drop whitespace from both ends. -/
def trimWs (s : List Char) : List Char :=
  ((s.dropWhile Char.isWhitespace).reverse.dropWhile Char.isWhitespace).reverse

/-- First author token of a recorded author string
(src/main.py lines 278-280): `author.split(",")[0].split(" and ")[0].strip()`. -/
def firstAuthorToken (author : List Char) : List Char :=
  trimWs (takeUntilSep (" and ".data) (takeUntilSep (",".data) author))

/-- Candidate bibliographic record returned by a provider lookup
(the dict built in `_search_dblp` / `_search_openalex`). -/
structure Candidate where
  source : List Char
  title : List Char
  year : List Char
  authors : List (List Char)
  url : List Char
deriving DecidableEq

/-- Recorded bibliography entry (the dict built in `parse_bib_files`;
the `raw_entry` back-pointer is not modelled). -/
structure BibEntry where
  key : List Char
  title : List Char
  author : List Char
  year : List Char
  source_file : List Char
deriving DecidableEq

/-- Classification status strings assigned in `main`. -/
inductive Status
  | Verified
  | MissingInBib
  | NotFound
  | TitleMismatch
  | AuthorMismatch
deriving DecidableEq

/-- One record of `all_citations_report`. -/
structure CitationInfo where
  key : List Char
  status : Status
  bib_metadata : Option BibEntry
  verification_result : Option Candidate
deriving DecidableEq

/-- One record of `hallucination_report`, one constructor per
status-specific shape appended in `main`. -/
inductive Issue
  | missingInBib (key reason : List Char)
  | notFound (key bib_title reason risk_level : List Char)
  | titleMismatch (key bib_title found_title : List Char)
      (similarity_score : ℚ) (source reason risk_level : List Char)
  | authorMismatch (key bib_author : List Char)
      (found_authors : List (List Char)) (reason risk_level : List Char)
deriving DecidableEq

/-- The citation key an issue record is about. -/
def issueKey : Issue → List Char
  | .missingInBib k _ => k
  | .notFound k _ _ _ => k
  | .titleMismatch k _ _ _ _ _ _ => k
  | .authorMismatch k _ _ _ _ => k

/-- A provider lookup, abstracted over the network: queried title to
optional candidate. -/
abbrev Provider := List Char → Option Candidate

/-- The merged bibliography map, key to optional entry. -/
abbrev BibMap := List Char → Option BibEntry

/-- `CitationVerifier.verify` (src/main.py lines 100-110): query DBLP;
if it answers with a candidate whose title similarity is at least 70,
return it; otherwise fall back to OpenAlex. -/
def verify (dblp openalex : Provider) (title : List Char) : Option Candidate :=
  match dblp title with
  | some result =>
    if scoreTitles title result.title < 70 then openalex title else some result
  | none => openalex title

/-- Whether the control flow of `verify` reaches the OpenAlex fallback
for a given title (true when DBLP returns nothing or only a
low-confidence candidate). -/
def openalexQueried (dblp : Provider) (title : List Char) : Bool :=
  match dblp title with
  | some result => decide (scoreTitles title result.title < 70)
  | none => true

/-- Number of provider lookups the main loop issues for a key: zero when
the key has no bibliography entry, one when DBLP short-circuits, two when
the fallback fires. -/
def networkCalls (bib : BibMap) (dblp : Provider) (key : List Char) : Nat :=
  match bib key with
  | none => 0
  | some entry => if openalexQueried dblp entry.title then 2 else 1

/-- SIMILARITY_THRESHOLD of src/main.py line 19. -/
def SIMILARITY_THRESHOLD : ℚ := 90

/-- Reason string of the Missing-in-Bib issue record. -/
def missingReason : List Char :=
  "Citation key found in TeX but missing in .bib files".data

/-- Reason string of the Not-Found issue record. -/
def notFoundReason : List Char :=
  "Paper not found in DBLP or OpenAlex".data

/-- Reason string of the Title-Mismatch issue record. -/
def titleMismatchReason : List Char :=
  "Title similarity below threshold".data

/-- Reason string of the Author-Mismatch issue record. -/
def authorMismatchReason : List Char :=
  "First author mismatch".data

/-- The author check of src/main.py lines 278-285: the first author token
of the recorded entry partial-matches (ratio above 80) some name at any
position of the candidate author list. -/
def authorFirstMatches (entry : BibEntry) (result : Candidate) : Bool :=
  result.authors.any fun fa =>
    decide (80 < partialMatchScore (lowerStr (firstAuthorToken entry.author)) (lowerStr fa))

/-- One iteration of the verification loop of `main`
(src/main.py lines 222-299): the record appended to
`all_citations_report` and the optional record appended to
`hallucination_report`. -/
def processKey (bib : BibMap) (dblp openalex : Provider) (key : List Char) :
    CitationInfo × Option Issue :=
  match bib key with
  | none =>
    (⟨key, .MissingInBib, none, none⟩, some (.missingInBib key missingReason))
  | some entry =>
    match verify dblp openalex entry.title with
    | none =>
      (⟨key, .NotFound, some entry, none⟩,
        some (.notFound key entry.title notFoundReason ("High".data)))
    | some result =>
      if scoreTitles entry.title result.title < SIMILARITY_THRESHOLD then
        (⟨key, .TitleMismatch, some entry, some result⟩,
          some (.titleMismatch key entry.title result.title
            (scoreTitles entry.title result.title) result.source
            titleMismatchReason ("Medium".data)))
      else if authorFirstMatches entry result then
        (⟨key, .Verified, some entry, some result⟩, none)
      else
        (⟨key, .AuthorMismatch, some entry, some result⟩,
          some (.authorMismatch key entry.author result.authors
            authorMismatchReason ("Medium".data)))

/-- The whole verification loop: the full per-key report and the
issues-only report, in key order. -/
def runVerification (bib : BibMap) (dblp openalex : Provider)
    (keys : List (List Char)) : List CitationInfo × List Issue :=
  (keys.map fun k => (processKey bib dblp openalex k).1,
   keys.filterMap fun k => (processKey bib dblp openalex k).2)

/-- Outcome of one HTTP GET, as seen after JSON parsing: a raised
exception (network or transport failure, decode error), or a response
with a status code and a parsed body. -/
inductive HttpOutcome (β : Type)
  | exn
  | response (status : Nat) (body : β)

/-- One element of the DBLP `author` field when it is a JSON list:
either an object with a `text` field or some other JSON value,
stringified. -/
inductive DblpAuthorElem
  | dict (text : List Char)
  | other (s : List Char)

/-- The raw duck-typed DBLP `authors.author` field: absent, a single
object, a bare string, or a list. -/
inductive DblpAuthorsRaw
  | missing
  | asDict (text : List Char)
  | asStr (s : List Char)
  | asList (items : List DblpAuthorElem)

/-- The author normalization of `_search_dblp` (src/main.py lines 49-58):
wrap a single object or bare string into a one-element list, then take
each element's `text` field (or its string form). -/
def normalizeDblpAuthors : DblpAuthorsRaw → List (List Char)
  | .missing => []
  | .asDict t => [t]
  | .asStr s => [s]
  | .asList items =>
    items.map fun it =>
      match it with
      | .dict t => t
      | .other s => s

/-- The `info` object of a DBLP hit. -/
structure DblpInfo where
  title : Option (List Char)
  year : Option (List Char)
  url : Option (List Char)
  authors : DblpAuthorsRaw

/-- Parsed DBLP response body: `result.hits.hit`, each hit reduced to
its `info` object. -/
structure DblpBody where
  hits : List DblpInfo

/-- `CitationVerifier._search_dblp` (src/main.py lines 37-69),
abstracted over the HTTP transport: none on exception, non-200 status or
empty hit list; otherwise the candidate built from the top hit. -/
def searchDblp (net : List Char → HttpOutcome DblpBody) (title : List Char) :
    Option Candidate :=
  match net title with
  | .exn => none
  | .response status body =>
    if status = 200 then
      match body.hits with
      | [] => none
      | info :: _ =>
        some ⟨"DBLP".data, info.title.getD [], info.year.getD ("N/A".data),
          normalizeDblpAuthors info.authors, info.url.getD []⟩
    else none

/-- The `author` object inside an OpenAlex authorship. -/
structure OaAuthor where
  display_name : Option (List Char)

/-- One element of the OpenAlex `authorships` list. -/
structure OaAuthorship where
  author : Option OaAuthor

/-- One OpenAlex work record. -/
structure OaWork where
  display_name : Option (List Char)
  publication_year : Option (List Char)
  authorships : List OaAuthorship
  doi : Option (List Char)

/-- Parsed OpenAlex response body: the `results` list. -/
structure OaBody where
  results : List OaWork

/-- Display name of one OpenAlex authorship, empty when the author
object or its display name is absent (src/main.py line 86). -/
def oaAuthorName (a : OaAuthorship) : List Char :=
  ((a.author.getD ⟨none⟩).display_name).getD []

/-- `CitationVerifier._search_openalex` (src/main.py lines 71-98),
abstracted over the HTTP transport: none on exception, non-200 status or
empty result list; otherwise the candidate built from the top result. -/
def searchOpenalex (net : List Char → HttpOutcome OaBody) (title : List Char) :
    Option Candidate :=
  match net title with
  | .exn => none
  | .response status body =>
    if status = 200 then
      match body.results with
      | [] => none
      | top :: _ =>
        some ⟨"OpenAlex".data, top.display_name.getD [],
          top.publication_year.getD ("N/A".data),
          top.authorships.map oaAuthorName, top.doi.getD []⟩
    else none

/-- A DBLP request that fails soft: exception, non-success status, or
empty result set. -/
def dblpRequestFailed : HttpOutcome DblpBody → Prop
  | .exn => True
  | .response status body => status ≠ 200 ∨ body.hits = []

/-- An OpenAlex request that fails soft: exception, non-success status,
or empty result set. -/
def oaRequestFailed : HttpOutcome OaBody → Prop
  | .exn => True
  | .response status body => status ≠ 200 ∨ body.results = []

/-! Concrete inputs used by the evaluation theorems below. -/

/-- A provider that never returns a candidate. -/
def noProvider : Provider := fun _ => none

/-- An empty bibliography map. -/
def noBib : BibMap := fun _ => none

/-- A high-confidence DBLP candidate for the title "a". -/
def w1Cand : Candidate := ⟨"DBLP".data, "a".data, "2020".data, ["x".data], []⟩

/-- A DBLP provider answering every query with `w1Cand`. -/
def w1Dblp : Provider := fun _ => some w1Cand

/-- An OpenAlex provider with behavior different from `noProvider`. -/
def w1Oa : Provider := fun _ => some ⟨"OpenAlex".data, "b".data, "2021".data, [], []⟩

/-- A bibliography entry with title "aaaa". -/
def c2Entry : BibEntry := ⟨"k".data, "aaaa".data, "X".data, "2020".data, "f.bib".data⟩

/-- A bibliography map holding only `c2Entry` under key "k". -/
def c2Bib : BibMap := fun k => if k = "k".data then some c2Entry else none

/-- A candidate whose title "zzzz" shares no character with "aaaa". -/
def c2Cand : Candidate := ⟨"DBLP".data, "zzzz".data, "2020".data, [], []⟩

/-- A DBLP provider answering every query with the low-confidence `c2Cand`. -/
def c2Dblp : Provider := fun _ => some c2Cand

/-- A bibliography entry with title "t" and recorded author "v". -/
def c3Entry : BibEntry := ⟨"k".data, "t".data, "v".data, "2020".data, "f.bib".data⟩

/-- A bibliography map holding only `c3Entry` under key "k". -/
def c3Bib : BibMap := fun k => if k = "k".data then some c3Entry else none

/-- A candidate with exactly matching title "t" and author list ["v"]. -/
def c3Cand : Candidate := ⟨"DBLP".data, "t".data, "2020".data, ["v".data], []⟩

/-- A DBLP provider answering every query with `c3Cand`. -/
def c3Dblp : Provider := fun _ => some c3Cand

/-- A bibliography entry with title "aa". -/
def c4Entry : BibEntry := ⟨"k".data, "aa".data, "X".data, "2020".data, "f.bib".data⟩

/-- A bibliography map holding only `c4Entry` under key "k". -/
def c4Bib : BibMap := fun k => if k = "k".data then some c4Entry else none

/-- An OpenAlex candidate with the mismatching title "ab". -/
def c4Cand : Candidate := ⟨"OpenAlex".data, "ab".data, "2020".data, [], []⟩

/-- An OpenAlex provider answering every query with `c4Cand`. -/
def c4Oa : Provider := fun _ => some c4Cand

/-- A DBLP transport that always raises. -/
def c7DblpNet : List Char → HttpOutcome DblpBody := fun _ => .exn

/-- An OpenAlex transport that always answers with status 500 and an
empty result list. -/
def c7OaNet : List Char → HttpOutcome OaBody := fun _ => .response 500 ⟨[]⟩

/-- A bibliography entry with title "t" and recorded author "x". -/
def c10Entry : BibEntry := ⟨"k".data, "t".data, "x".data, "2020".data, "f.bib".data⟩

/-- A bibliography map holding only `c10Entry` under key "k". -/
def c10Bib : BibMap := fun k => if k = "k".data then some c10Entry else none

/-- A candidate with exactly matching title "t" and an empty author list. -/
def c10Cand : Candidate := ⟨"DBLP".data, "t".data, "2020".data, [], []⟩

/-- A DBLP provider answering every query with `c10Cand`. -/
def c10Dblp : Provider := fun _ => some c10Cand

/-! Theorems. -/

/-- The LCS length of the empty string against anything is zero. -/
theorem lcsLen_nil (b : List Char) : lcsLen [] b = 0 := rfl

/-- The LCS length of anything against the empty string is zero. -/
theorem lcsLen_nil_right (x : Char) (xs : List Char) : lcsLen (x :: xs) [] = 0 := rfl

/-- The textbook LCS recursion, recovered from the structural encoding. -/
theorem lcsLen_cons_cons (x y : Char) (xs ys : List Char) :
    lcsLen (x :: xs) (y :: ys)
      = if x = y then lcsLen xs ys + 1
        else max (lcsLen (x :: xs) ys) (lcsLen xs (y :: ys)) := rfl

/-- The LCS length is symmetric in its two arguments. -/
theorem lcsLen_comm (a : List Char) : ∀ b, lcsLen a b = lcsLen b a := by
  induction a with
  | nil => intro b; cases b <;> rfl
  | cons x xs ih =>
    intro b
    induction b with
    | nil => rfl
    | cons y ys ihb =>
      rw [lcsLen_cons_cons, lcsLen_cons_cons]
      by_cases h : x = y
      · subst h; rw [if_pos rfl, if_pos rfl, ih ys]
      · rw [if_neg h, if_neg (fun hyx => h hyx.symm)]
        rw [ihb, ih (y :: ys), Nat.max_comm]

/-- The indel similarity is symmetric in its two arguments. -/
theorem simScore_comm (a b : List Char) : simScore a b = simScore b a := by
  unfold simScore
  rw [lcsLen_comm a b, Nat.add_comm a.length b.length,
    add_comm ((a.length : ℚ)) ((b.length : ℚ))]

/-- C8: the title similarity score used by the pipeline is symmetric:
`scoreTitles a b = scoreTitles b a` for all strings `a` and `b`. -/
theorem c8_score_symmetric (a b : List Char) : scoreTitles a b = scoreTitles b a := by
  unfold scoreTitles
  exact simScore_comm (lowerStr a) (lowerStr b)

/-- C1: when DBLP returns a candidate whose title similarity to the
input title is at least 70, `verify` returns that candidate, its result
does not depend on the OpenAlex provider, and the control flow never
reaches the OpenAlex fallback. -/
theorem c1_primary_high_confidence (dblp oa oa' : Provider) (title : List Char)
    (r : Candidate) (h1 : dblp title = some r)
    (h2 : 70 ≤ scoreTitles title r.title) :
    verify dblp oa title = some r
  ∧ verify dblp oa title = verify dblp oa' title
  ∧ openalexQueried dblp title = false := by
  have hlt : ¬ scoreTitles title r.title < 70 := not_lt.mpr h2
  unfold verify openalexQueried
  rw [h1]
  simp [hlt]

unseal Rat.mul Rat.inv Rat.add in
/-- Evaluation of `c1_primary_high_confidence` on a concrete input. -/
theorem c1_witness :
    w1Dblp ("a".data) = some w1Cand
  ∧ 70 ≤ scoreTitles ("a".data) w1Cand.title
  ∧ (verify w1Dblp noProvider ("a".data) = some w1Cand
      ∧ verify w1Dblp noProvider ("a".data) = verify w1Dblp w1Oa ("a".data)
      ∧ openalexQueried w1Dblp ("a".data) = false) :=
  ⟨rfl, by decide,
    c1_primary_high_confidence w1Dblp noProvider w1Oa ("a".data) w1Cand rfl (by decide)⟩

/-- A key without a bibliography entry: `verify` is characterized below;
the chain yields no candidate exactly when OpenAlex yields none and DBLP
yields none or only a candidate with similarity below 70. -/
theorem verify_eq_none_iff (dblp oa : Provider) (title : List Char) :
    verify dblp oa title = none ↔
      oa title = none ∧ (dblp title = none ∨
        ∃ r, dblp title = some r ∧ scoreTitles title r.title < 70) := by
  unfold verify
  cases h : dblp title with
  | none => simp
  | some r =>
    by_cases hs : scoreTitles title r.title < 70
    · simp [hs]
    · simp [hs]

/-- C5: a citation key absent from the bibliography map is classified
MissingInBib with the corresponding issue record, no provider lookup is
issued for it, and its outcome is independent of both providers. -/
theorem c5_missing_in_bib (bib : BibMap) (dblp dblp' oa oa' : Provider)
    (key : List Char) (h : bib key = none) :
    (processKey bib dblp oa key).1.status = Status.MissingInBib
  ∧ (processKey bib dblp oa key).2 = some (Issue.missingInBib key missingReason)
  ∧ networkCalls bib dblp key = 0
  ∧ processKey bib dblp oa key = processKey bib dblp' oa' key := by
  simp [processKey, networkCalls, h]

/-- Evaluation of `c5_missing_in_bib` on a concrete input. -/
theorem c5_witness :
    noBib ("foo2020".data) = none
  ∧ ((processKey noBib w1Dblp w1Oa ("foo2020".data)).1.status = Status.MissingInBib
      ∧ (processKey noBib w1Dblp w1Oa ("foo2020".data)).2
          = some (Issue.missingInBib ("foo2020".data) missingReason)
      ∧ networkCalls noBib w1Dblp ("foo2020".data) = 0
      ∧ processKey noBib w1Dblp w1Oa ("foo2020".data)
          = processKey noBib noProvider noProvider ("foo2020".data)) :=
  ⟨rfl, c5_missing_in_bib noBib w1Dblp noProvider w1Oa noProvider ("foo2020".data) rfl⟩

unseal Rat.mul Rat.inv Rat.add in
/-- C2 fails as stated: for key "k", DBLP yields a candidate (with title
similarity below 70) and OpenAlex yields none, yet the classification is
NotFound with risk High — so NotFound-with-High does not imply that both
providers yielded no candidate. -/
theorem c2_counterexample :
    (processKey c2Bib c2Dblp noProvider ("k".data)).1.status = Status.NotFound
  ∧ (processKey c2Bib c2Dblp noProvider ("k".data)).2
      = some (Issue.notFound ("k".data) ("aaaa".data) notFoundReason ("High".data))
  ∧ ¬ (c2Dblp c2Entry.title = none ∧ noProvider c2Entry.title = none) := by
  refine ⟨by decide, by decide, ?_⟩
  intro h
  cases h.1

/-- C2 amended: for a key with a bibliography entry, the classification
is NotFound exactly when the verification chain yields no candidate; in
that case the issue records risk High; and the chain yields no candidate
exactly when OpenAlex returns none and DBLP returns none or only a
candidate with title similarity below 70. -/
theorem c2_notfound_iff_chain_empty (bib : BibMap) (dblp oa : Provider)
    (key : List Char) (e : BibEntry) (hb : bib key = some e) :
    ((processKey bib dblp oa key).1.status = Status.NotFound
      ↔ verify dblp oa e.title = none)
  ∧ (verify dblp oa e.title = none →
      (processKey bib dblp oa key).2
        = some (Issue.notFound key e.title notFoundReason ("High".data)))
  ∧ (verify dblp oa e.title = none ↔
      oa e.title = none ∧ (dblp e.title = none ∨
        ∃ r, dblp e.title = some r ∧ scoreTitles e.title r.title < 70)) := by
  refine ⟨?_, ?_, verify_eq_none_iff dblp oa e.title⟩
  · simp only [processKey, hb]
    cases hv : verify dblp oa e.title with
    | none => simp
    | some r =>
      simp only []
      split
      · simp
      · split <;> simp
  · intro hv
    simp only [processKey, hb, hv]

/-- Evaluation of `c2_notfound_iff_chain_empty` on a concrete input. -/
theorem c2_amended_witness :
    c2Bib ("k".data) = some c2Entry
  ∧ ((processKey c2Bib c2Dblp noProvider ("k".data)).1.status = Status.NotFound
      ↔ verify c2Dblp noProvider c2Entry.title = none) :=
  ⟨rfl,
    (c2_notfound_iff_chain_empty c2Bib c2Dblp noProvider ("k".data) c2Entry rfl).1⟩

/-- C3: for an entry whose lookup returned a candidate with title
similarity at least 90, the classification is Verified when the first
author token of the recorded author string partial-matches (ratio above
80) some name at any position of the candidate author list, and
AuthorMismatch with risk Medium otherwise; the author check is exactly
that existential over the candidate author list. -/
theorem c3_author_gate (bib : BibMap) (dblp oa : Provider) (key : List Char)
    (e : BibEntry) (r : Candidate)
    (hb : bib key = some e) (hv : verify dblp oa e.title = some r)
    (hs : 90 ≤ scoreTitles e.title r.title) :
    (authorFirstMatches e r = true →
      (processKey bib dblp oa key).1.status = Status.Verified)
  ∧ (authorFirstMatches e r = false →
      (processKey bib dblp oa key).1.status = Status.AuthorMismatch
      ∧ (processKey bib dblp oa key).2
          = some (Issue.authorMismatch key e.author r.authors
              authorMismatchReason ("Medium".data)))
  ∧ (authorFirstMatches e r = true ↔
      ∃ fa ∈ r.authors,
        80 < partialMatchScore (lowerStr (firstAuthorToken e.author)) (lowerStr fa)) := by
  have hlt : ¬ scoreTitles e.title r.title < SIMILARITY_THRESHOLD := by
    unfold SIMILARITY_THRESHOLD
    exact not_lt.mpr hs
  simp only [processKey, hb, hv, if_neg hlt]
  refine ⟨fun hm => ?_, fun hm => ?_, ?_⟩
  · rw [if_pos hm]
  · rw [if_neg (by simp [hm])]
    exact ⟨rfl, rfl⟩
  · simp [authorFirstMatches, List.any_eq_true]

unseal Rat.mul Rat.inv Rat.add in
/-- Evaluation of `c3_author_gate` on a concrete input. -/
theorem c3_witness :
    c3Bib ("k".data) = some c3Entry
  ∧ verify c3Dblp noProvider c3Entry.title = some c3Cand
  ∧ 90 ≤ scoreTitles c3Entry.title c3Cand.title
  ∧ (authorFirstMatches c3Entry c3Cand = true →
      (processKey c3Bib c3Dblp noProvider ("k".data)).1.status = Status.Verified) :=
  ⟨rfl, by decide, by decide,
    (c3_author_gate c3Bib c3Dblp noProvider ("k".data) c3Entry c3Cand rfl
      (by decide) (by decide)).1⟩

/-- C4: for an entry whose verify call returned a candidate with title
similarity below 90, the classification is TitleMismatch, the candidate
is recorded in the outcome, and the issue records both titles, the
numeric score, the answering provider, and risk Medium. -/
theorem c4_title_mismatch (bib : BibMap) (dblp oa : Provider) (key : List Char)
    (e : BibEntry) (r : Candidate)
    (hb : bib key = some e) (hv : verify dblp oa e.title = some r)
    (hs : scoreTitles e.title r.title < 90) :
    (processKey bib dblp oa key).1.status = Status.TitleMismatch
  ∧ (processKey bib dblp oa key).1.verification_result = some r
  ∧ (processKey bib dblp oa key).2
      = some (Issue.titleMismatch key e.title r.title
          (scoreTitles e.title r.title) r.source titleMismatchReason ("Medium".data)) := by
  have hlt : scoreTitles e.title r.title < SIMILARITY_THRESHOLD := by
    unfold SIMILARITY_THRESHOLD
    exact hs
  simp only [processKey, hb, hv, if_pos hlt]
  exact ⟨trivial, trivial, trivial⟩

unseal Rat.mul Rat.inv Rat.add in
/-- Evaluation of `c4_title_mismatch` on a concrete input. -/
theorem c4_witness :
    c4Bib ("k".data) = some c4Entry
  ∧ verify noProvider c4Oa c4Entry.title = some c4Cand
  ∧ scoreTitles c4Entry.title c4Cand.title < 90
  ∧ ((processKey c4Bib noProvider c4Oa ("k".data)).1.status = Status.TitleMismatch
      ∧ (processKey c4Bib noProvider c4Oa ("k".data)).1.verification_result = some c4Cand
      ∧ (processKey c4Bib noProvider c4Oa ("k".data)).2
          = some (Issue.titleMismatch ("k".data) c4Entry.title c4Cand.title
              (scoreTitles c4Entry.title c4Cand.title) c4Cand.source
              titleMismatchReason ("Medium".data))) :=
  ⟨rfl, rfl, by decide,
    c4_title_mismatch c4Bib noProvider c4Oa ("k".data) c4Entry c4Cand rfl rfl (by decide)⟩

/-- The outcome produced for a key carries that key. -/
theorem processKey_fst_key (bib : BibMap) (dblp oa : Provider) (k : List Char) :
    (processKey bib dblp oa k).1.key = k := by
  unfold processKey
  split
  · rfl
  · split
    · rfl
    · split
      · rfl
      · split <;> rfl

/-- A key produces no issue record exactly when its outcome is Verified. -/
theorem processKey_issue_none_iff (bib : BibMap) (dblp oa : Provider) (k : List Char) :
    (processKey bib dblp oa k).2 = none ↔
      (processKey bib dblp oa k).1.status = Status.Verified := by
  unfold processKey
  split
  · simp
  · split
    · simp
    · split
      · simp
      · split <;> simp

/-- The issue record produced for a key carries that key. -/
theorem processKey_issue_key (bib : BibMap) (dblp oa : Provider) (k : List Char) :
    ∀ i, (processKey bib dblp oa k).2 = some i → issueKey i = k := by
  unfold processKey
  split
  · intro i h; obtain rfl := Option.some.inj h; rfl
  · split
    · intro i h; obtain rfl := Option.some.inj h; rfl
    · split
      · intro i h; obtain rfl := Option.some.inj h; rfl
      · split
        · intro i h; cases h
        · intro i h; obtain rfl := Option.some.inj h; rfl

/-- C6: every processed key yields exactly one outcome in the full
report (the report keys are the processed keys, in order), and the keys
of the issues report are exactly the keys of the non-Verified outcomes,
in order. -/
theorem c6_report_and_issues (bib : BibMap) (dblp oa : Provider)
    (keys : List (List Char)) :
    (runVerification bib dblp oa keys).1.map CitationInfo.key = keys
  ∧ (runVerification bib dblp oa keys).2.map issueKey
      = (((runVerification bib dblp oa keys).1.filter
            fun c => decide (c.status ≠ Status.Verified)).map CitationInfo.key) := by
  unfold runVerification
  constructor
  · rw [List.map_map]
    have h1 : ∀ k ∈ keys,
        (CitationInfo.key ∘ fun k => (processKey bib dblp oa k).1) k = id k :=
      fun k _ => processKey_fst_key bib dblp oa k
    rw [List.map_congr_left h1, List.map_id]
  · induction keys with
    | nil => rfl
    | cons k ks ih =>
      simp only [List.map_cons, List.filterMap_cons, List.filter_cons]
      cases h2 : (processKey bib dblp oa k).2 with
      | none =>
        have hv : (processKey bib dblp oa k).1.status = Status.Verified :=
          (processKey_issue_none_iff bib dblp oa k).mp h2
        simp [hv, ih]
      | some i =>
        have hnv : ¬ (processKey bib dblp oa k).1.status = Status.Verified := by
          intro hc
          rw [← processKey_issue_none_iff bib dblp oa k] at hc
          rw [h2] at hc
          cases hc
        have hk := processKey_issue_key bib dblp oa k i h2
        simp [hnv, hk, processKey_fst_key, ih]

/-- C7: each provider search returns none rather than raising whenever
its request fails: on a network/transport exception, a non-success HTTP
status, or an empty result set. -/
theorem c7_providers_fail_soft (netD : List Char → HttpOutcome DblpBody)
    (netO : List Char → HttpOutcome OaBody) (t1 t2 : List Char)
    (h1 : dblpRequestFailed (netD t1)) (h2 : oaRequestFailed (netO t2)) :
    searchDblp netD t1 = none ∧ searchOpenalex netO t2 = none := by
  constructor
  · unfold searchDblp
    cases h : netD t1 with
    | exn => rfl
    | response status body =>
      rw [h] at h1
      unfold dblpRequestFailed at h1
      rcases h1 with hs | hh
      · simp [hs]
      · simp [hh]
  · unfold searchOpenalex
    cases h : netO t2 with
    | exn => rfl
    | response status body =>
      rw [h] at h2
      unfold oaRequestFailed at h2
      rcases h2 with hs | hh
      · simp [hs]
      · simp [hh]

/-- Evaluation of `c7_providers_fail_soft` on concrete failing requests:
a raised exception on the DBLP side and a status-500 response with an
empty result list on the OpenAlex side. -/
theorem c7_witness :
    dblpRequestFailed (c7DblpNet ("q".data))
  ∧ oaRequestFailed (c7OaNet ("q".data))
  ∧ searchDblp c7DblpNet ("q".data) = none
  ∧ searchOpenalex c7OaNet ("q".data) = none :=
  ⟨trivial, Or.inl (by decide),
    (c7_providers_fail_soft c7DblpNet c7OaNet ("q".data) ("q".data)
      trivial (Or.inl (by decide))).1,
    (c7_providers_fail_soft c7DblpNet c7OaNet ("q".data) ("q".data)
      trivial (Or.inl (by decide))).2⟩

/-- C9: with providers and bibliography map fixed as deterministic
functions, the pipeline is deterministic: pointwise-equal inputs and a
permuted key list produce permuted report and issue lists (identical
lists when the key order is identical). -/
theorem c9_idempotent_mod_perm (bib bib' : BibMap) (dblp dblp' oa oa' : Provider)
    (keys keys' : List (List Char))
    (hbib : ∀ k, bib k = bib' k) (hd : ∀ t, dblp t = dblp' t)
    (ho : ∀ t, oa t = oa' t) (hperm : keys.Perm keys') :
    ((runVerification bib dblp oa keys).1).Perm
      ((runVerification bib' dblp' oa' keys').1)
  ∧ ((runVerification bib dblp oa keys).2).Perm
      ((runVerification bib' dblp' oa' keys').2) := by
  have hb : bib = bib' := funext hbib
  have hdd : dblp = dblp' := funext hd
  have hoo : oa = oa' := funext ho
  subst hb
  subst hdd
  subst hoo
  unfold runVerification
  exact ⟨hperm.map _, hperm.filterMap _⟩

/-- Evaluation of `c9_idempotent_mod_perm` on a concrete input with the
same two keys in swapped order. -/
theorem c9_witness :
    ((runVerification c3Bib c3Dblp noProvider [("a".data), ("b".data)]).1).Perm
      ((runVerification c3Bib c3Dblp noProvider [("b".data), ("a".data)]).1)
  ∧ ((runVerification c3Bib c3Dblp noProvider [("a".data), ("b".data)]).2).Perm
      ((runVerification c3Bib c3Dblp noProvider [("b".data), ("a".data)]).2) :=
  c9_idempotent_mod_perm c3Bib c3Bib c3Dblp c3Dblp noProvider noProvider
    [("a".data), ("b".data)] [("b".data), ("a".data)]
    (fun _ => rfl) (fun _ => rfl) (fun _ => rfl)
    (List.Perm.swap ("b".data) ("a".data) [])

/-- C10: for an entry whose lookup returned a candidate with title
similarity at least 90 but an empty author list, the classification is
AuthorMismatch: the author check quantifies over the candidate author
list, so it can never succeed on an empty list, regardless of the
recorded author string. -/
theorem c10_empty_authors_mismatch (bib : BibMap) (dblp oa : Provider)
    (key : List Char) (e : BibEntry) (r : Candidate)
    (hb : bib key = some e) (hv : verify dblp oa e.title = some r)
    (hs : 90 ≤ scoreTitles e.title r.title) (ha : r.authors = []) :
    (processKey bib dblp oa key).1.status = Status.AuthorMismatch
  ∧ (processKey bib dblp oa key).2
      = some (Issue.authorMismatch key e.author r.authors
          authorMismatchReason ("Medium".data)) := by
  have hlt : ¬ scoreTitles e.title r.title < SIMILARITY_THRESHOLD := by
    unfold SIMILARITY_THRESHOLD
    exact not_lt.mpr hs
  have hm : authorFirstMatches e r = false := by
    unfold authorFirstMatches
    rw [ha]
    rfl
  simp only [processKey, hb, hv, if_neg hlt]
  rw [if_neg (by simp [hm])]
  exact ⟨rfl, rfl⟩

unseal Rat.mul Rat.inv Rat.add in
/-- Evaluation of `c10_empty_authors_mismatch` on a concrete input. -/
theorem c10_witness :
    c10Bib ("k".data) = some c10Entry
  ∧ verify c10Dblp noProvider c10Entry.title = some c10Cand
  ∧ 90 ≤ scoreTitles c10Entry.title c10Cand.title
  ∧ c10Cand.authors = []
  ∧ ((processKey c10Bib c10Dblp noProvider ("k".data)).1.status = Status.AuthorMismatch
      ∧ (processKey c10Bib c10Dblp noProvider ("k".data)).2
          = some (Issue.authorMismatch ("k".data) c10Entry.author c10Cand.authors
              authorMismatchReason ("Medium".data))) :=
  ⟨rfl, by decide, by decide, rfl,
    c10_empty_authors_mismatch c10Bib c10Dblp noProvider ("k".data) c10Entry c10Cand
      rfl (by decide) (by decide) rfl⟩

end CiteCheck
